import Mathlib

/-!
Verification of the BioQuery backend (`src/app.py`).

The backend consists of three pieces:
* `load_data` — reads `publications.csv` and `embeddings.npy`, catching
  `FileNotFoundError` and returning the sentinel pair `(None, None)`;
* `search` — guards the empty query, encodes the query with an external
  sentence-embedding model, and delegates ranking to
  `sentence_transformers.util.semantic_search` (external library code,
  modelled here from the spec);
* `get_summary` — a 50-word gate, truncation to 1024 characters, and a call
  to an external summarization pipeline with `max_length=150`,
  `min_length=40`, `do_sample=False`.

External model calls are embedded as explicit function parameters; ambient
sampling randomness is made explicit as a seed argument, and the spec's
contract that non-sampling decoding is deterministic is carried as a proof
field of the `Summarizer` structure.  Real-valued scores are modelled with
rationals.
-/

namespace BioQuery

/-- One row of `publications.csv` as consumed by the app: `Title` and
`Abstract` are required columns, `Authors` and `Year` optional. -/
structure Publication where
  title : String
  abstract : String
  authors : Option String
  year : Option String
deriving DecidableEq, Repr

/-- The part of the file system `load_data` touches: the parsed contents of
`publications.csv` (if the file exists) and of `embeddings.npy` (if it
exists).  `none` models a missing file, i.e. a read raising
`FileNotFoundError`. -/
structure FileSystem where
  csv : Option (List Publication)
  npy : Option (List (List ℚ))

/-- Embeds `load_data` (src/app.py lines 77-86).  Python reads the CSV
first, then the NumPy array; a `FileNotFoundError` from either read is
caught and the function returns `(None, None)`.  There is no further
validation in the source. -/
def load_data (fs : FileSystem) : Option (List Publication) × Option (List (List ℚ)) :=
  match fs.csv with
  | none => (none, none)
  | some df =>
    match fs.npy with
    | none => (none, none)
    | some embeddings => (some df, some embeddings)

/-- Word count as computed by Python's `text.split()` with no argument:
the number of maximal runs of non-whitespace characters.  The Boolean
argument records whether the previous character was inside a word. -/
def countWordsAux : List Char → Bool → Nat
  | [], _ => 0
  | c :: cs, inWord =>
    if c.isWhitespace then countWordsAux cs false
    else (if inWord then 0 else 1) + countWordsAux cs true

/-- `len(text.split())` in Python. -/
def wordCount (text : String) : Nat :=
  countWordsAux text.data false

/-- The fixed sentinel returned by `get_summary` for too-short input
(src/app.py line 100). -/
def sentinel : String :=
  "The abstract is too short to generate a meaningful summary."

/-- The external summarization pipeline (`transformers` `pipeline`,
src/app.py line 74), treated as an opaque black box.  `run` takes the input
text, `max_length`, `min_length`, `do_sample`, and an explicit seed for the
ambient sampling randomness, and returns the list of `summary_text` fields
of the pipeline's output.  `nosample_det` is the external contract stated
in the spec (§6): under non-sampling decoding (`do_sample=False`) the
output does not depend on the randomness. -/
structure Summarizer where
  run : String → Nat → Nat → Bool → Nat → List String
  nosample_det : ∀ input maxL minL r₁ r₂,
    run input maxL minL false r₁ = run input maxL minL false r₂

/-- Embeds `get_summary` (src/app.py lines 97-102).  The guard is Python's
`if not text or len(text.split()) < 50`; otherwise the pipeline is invoked
on `text[:1024]` with `max_length=150, min_length=40, do_sample=False` and
the first result's `summary_text` is returned.  `none` models the
`IndexError` Python would raise if the pipeline returned an empty list. -/
def get_summary (s : Summarizer) (seed : Nat) (text : String) : Option String :=
  if text = "" ∨ wordCount text < 50 then
    some sentinel
  else
    (s.run (text.take 1024) 150 40 false seed).head?

/-- A single search result: `{corpus_id, score}` as produced by
`semantic_search`. -/
structure SearchHit where
  corpus_id : Nat
  score : ℚ
deriving DecidableEq, Repr

/-- Dot product of two embedding vectors. -/
def dot (v w : List ℚ) : ℚ :=
  (List.zipWith (· * ·) v w).sum

/-- Comparator realising "descending score, ties broken by original row
order": earlier rows have smaller `corpus_id`, so the lexicographic order
below is exactly a stable descending sort by score over the enumerated
corpus. -/
def hitLE (a b : SearchHit) : Bool :=
  decide (b.score < a.score ∨ (a.score = b.score ∧ a.corpus_id ≤ b.corpus_id))

/-- Modelled from the spec: `sentence_transformers.util.semantic_search`
(external library code called at src/app.py line 94, not part of this
repository).  Per the spec (§4.2), it scores every corpus row by dot
product against the query embedding and returns the `top_k`
highest-scoring rows as `SearchHit{corpus_id, score}`, sorted by
descending score with ties broken by original row order (stable sort).
The Python utility returns one hit list per query; `search` passes a
single query and takes `hits[0]`, so this embedding returns that single
list directly. -/
def semantic_search (q : List ℚ) (corpus : List (List ℚ)) (top_k : Nat) : List SearchHit :=
  (((corpus.enum.map fun p => SearchHit.mk p.1 (dot q p.2)).mergeSort hitLE).take top_k)

/-- Embeds `search` (src/app.py lines 89-95).  Python's `if not query`
guard is true exactly for the empty string; otherwise the query is encoded
by the external model and ranked by `semantic_search`. -/
def search (query : String) (search_model : String → List ℚ)
    (embeddings_tensor : List (List ℚ)) (top_k : Nat) : List SearchHit :=
  if query = "" then []
  else semantic_search (search_model query) embeddings_tensor top_k

/-! ### Helper definitions and lemmas -/

/-- A concrete publication row, used in concrete instantiations. -/
def pubA : Publication :=
  ⟨"A", "abstract of A", none, none⟩

/-- A concrete summarizer that echoes its (truncated) input. -/
def echoSummarizer : Summarizer where
  run := fun input _ _ _ _ => [input]
  nosample_det := fun _ _ _ _ _ => rfl

/-- A literal 50-word text (50 copies of `w` separated by single spaces). -/
def fiftyWords : String :=
  "w w w w w w w w w w w w w w w w w w w w w w w w w w w w w w w w w w w w w w w w w w w w w w w w w w"

/-- A whitespace-only string of 1025 characters, longer than the 1024-character
truncation bound. -/
def longWhitespace : String :=
  String.mk (List.replicate 1025 ' ')

theorem countWordsAux_eq_zero {l : List Char} (h : ∀ c ∈ l, c.isWhitespace) :
    ∀ b, countWordsAux l b = 0 := by
  induction l with
  | nil => intro b; rfl
  | cons c cs ih =>
    intro b
    have hc : c.isWhitespace := h c (List.mem_cons_self c cs)
    simp only [countWordsAux, hc, if_true]
    exact ih (fun x hx => h x (List.mem_cons_of_mem _ hx)) false

theorem get_summary_eq_sentinel (s : Summarizer) (seed : Nat) (text : String)
    (h : text = "" ∨ wordCount text < 50) :
    get_summary s seed text = some sentinel := by
  unfold get_summary
  rw [if_pos h]

theorem get_summary_eq_run (s : Summarizer) (seed : Nat) (text : String)
    (h : 50 ≤ wordCount text) :
    get_summary s seed text = (s.run (text.take 1024) 150 40 false seed).head? := by
  have h1 : ¬(text = "" ∨ wordCount text < 50) := by
    rintro (he | hlt)
    · rw [he] at h
      exact absurd h (by decide)
    · omega
  unfold get_summary
  rw [if_neg h1]

/-! ### Claims about data loading -/

/-- C10: `load_data` is all-or-nothing: for every state of the two input
files it returns either both components loaded or the pair `(None, None)`,
never a mixed pair with exactly one component present. -/
theorem load_data_all_or_nothing (fs : FileSystem) :
    (∃ df emb, load_data fs = (some df, some emb)) ∨
    load_data fs = (none, none) := by
  rcases fs with ⟨csv, npy⟩
  cases csv with
  | none => exact Or.inr rfl
  | some df =>
    cases npy with
    | none => exact Or.inr rfl
    | some emb => exact Or.inl ⟨df, emb, rfl⟩

/-- C1 counterexample: loading a one-row table together with a two-row
embedding matrix does not fail — `load_data` performs no row-count
validation, and the mismatched pair is returned to the caller. -/
theorem load_data_mismatch_cex :
    load_data ⟨some [pubA], some [[1], [2]]⟩ = (some [pubA], some [[1], [2]]) ∧
    [pubA].length ≠ ([[1], [2]] : List (List ℚ)).length :=
  ⟨rfl, by decide⟩

/-- C1 (amended): `load_data` performs no row-count validation: when both
files are present, artifacts whose row counts differ are loaded and
returned unchanged — loading neither fails, truncates, nor pads. -/
theorem load_data_mismatch_loads (df : List Publication) (emb : List (List ℚ))
    (h : df.length ≠ emb.length) :
    load_data ⟨some df, some emb⟩ = (some df, some emb) := rfl

/-- Witness for C1's amended theorem at a concrete mismatched input. -/
theorem load_data_mismatch_loads_witness :
    [pubA].length ≠ ([[1], [2]] : List (List ℚ)).length ∧
    load_data ⟨some [pubA], some [[1], [2]]⟩ = (some [pubA], some [[1], [2]]) :=
  ⟨by decide, load_data_mismatch_loads [pubA] [[1], [2]] (by decide)⟩

/-- C4 counterexample: with the embeddings file missing (and likewise with
both files missing), `load_data` returns the in-band sentinel pair
`(None, None)` — it does not fail with a `CorpusNotFoundError` (no such
error type exists in the code), and the sentinel carries no information
distinguishing a missing-file failure from any other. -/
theorem load_data_missing_cex :
    load_data ⟨some [pubA], none⟩ = (none, none) ∧
    load_data ⟨none, none⟩ = (none, none) :=
  ⟨rfl, rfl⟩

/-- C4 (amended): when either input file is missing, `load_data` catches the
`FileNotFoundError` and returns `(None, None)` instead of letting the I/O
fault propagate; the caller detects the failure by the `None` components,
not by a dedicated error type. -/
theorem load_data_missing_returns_none (fs : FileSystem)
    (h : fs.csv = none ∨ fs.npy = none) :
    load_data fs = (none, none) := by
  rcases fs with ⟨csv, npy⟩
  rcases h with h | h
  · cases h
    rfl
  · cases h
    cases csv <;> rfl

/-- Witness for C4's amended theorem with the embeddings file missing. -/
theorem load_data_missing_returns_none_witness :
    (FileSystem.mk (some [pubA]) none).npy = none ∧
    load_data ⟨some [pubA], none⟩ = (none, none) :=
  ⟨rfl, load_data_missing_returns_none ⟨some [pubA], none⟩ (Or.inr rfl)⟩

/-! ### Claims about summarization -/

/-- C3: for every text that is empty or has fewer than 50 words,
`get_summary` returns exactly the fixed sentinel string.  The result is
quantified over every summarizer `s` and every seed, so the model is never
invoked: the output is independent of the model. -/
theorem get_summary_short_sentinel (s : Summarizer) (seed : Nat) (text : String)
    (h : text = "" ∨ wordCount text < 50) :
    get_summary s seed text = some sentinel :=
  get_summary_eq_sentinel s seed text h

/-- Witness for C3 at the concrete two-word text. -/
theorem get_summary_short_sentinel_witness :
    (("too short" : String) = "" ∨ wordCount "too short" < 50) ∧
    get_summary echoSummarizer 0 "too short" = some sentinel :=
  ⟨Or.inr (by decide),
    get_summary_short_sentinel echoSummarizer 0 "too short" (Or.inr (by decide))⟩

/-- C9: every whitespace-only string, of any length, has word count zero
under Python's `text.split()`, so `get_summary` returns the sentinel; the
quantification over the summarizer and seed shows the model is never
invoked. -/
theorem get_summary_whitespace_sentinel (s : Summarizer) (seed : Nat) (text : String)
    (h : ∀ c ∈ text.data, c.isWhitespace) :
    get_summary s seed text = some sentinel := by
  have hw : wordCount text = 0 := countWordsAux_eq_zero h false
  exact get_summary_eq_sentinel s seed text (Or.inr (by omega))

/-- Witness for C9 at a 1025-character whitespace-only string, longer than
the 1024-character truncation bound. -/
theorem get_summary_whitespace_sentinel_witness :
    (∀ c ∈ longWhitespace.data, c.isWhitespace) ∧ 1024 < longWhitespace.length ∧
    get_summary echoSummarizer 0 longWhitespace = some sentinel := by
  have hws : ∀ c ∈ longWhitespace.data, c.isWhitespace := by
    intro c hc
    have hc' : c = ' ' :=
      List.eq_of_mem_replicate (show c ∈ List.replicate 1025 ' ' from hc)
    rw [hc']
    decide
  refine ⟨hws, ?_, get_summary_whitespace_sentinel echoSummarizer 0 longWhitespace hws⟩
  show 1024 < (List.replicate 1025 ' ').length
  rw [List.length_replicate]
  decide

/-- C6: for every text passing the length gate (at least 50 words, hence
non-empty), `get_summary` invokes the model on the first 1024 characters of
the text with `max_length = 150`, `min_length = 40` and `do_sample = False`,
and returns the first result. -/
theorem get_summary_invokes_model (s : Summarizer) (seed : Nat) (text : String)
    (h : 50 ≤ wordCount text) :
    get_summary s seed text = (s.run (text.take 1024) 150 40 false seed).head? :=
  get_summary_eq_run s seed text h

/-- Witness for C6 at the concrete 50-word text and the echo summarizer. -/
theorem get_summary_invokes_model_witness :
    50 ≤ wordCount fiftyWords ∧
    get_summary echoSummarizer 0 fiftyWords =
      (echoSummarizer.run (fiftyWords.take 1024) 150 40 false 0).head? :=
  ⟨by decide, get_summary_invokes_model echoSummarizer 0 fiftyWords (by decide)⟩

/-- C8: for every text with at least 50 words and a fixed summarizer (fixed
model weights), `get_summary` returns the same string regardless of the
ambient sampling randomness: the call passes `do_sample = False`, and the
summarizer's non-sampling contract makes the output independent of the
seed. -/
theorem get_summary_deterministic (s : Summarizer) (r₁ r₂ : Nat) (text : String)
    (h : 50 ≤ wordCount text) :
    get_summary s r₁ text = get_summary s r₂ text := by
  rw [get_summary_eq_run s r₁ text h, get_summary_eq_run s r₂ text h,
    s.nosample_det (text.take 1024) 150 40 r₁ r₂]

/-- Witness for C8 at the concrete 50-word text and two different seeds. -/
theorem get_summary_deterministic_witness :
    50 ≤ wordCount fiftyWords ∧
    get_summary echoSummarizer 0 fiftyWords = get_summary echoSummarizer 1 fiftyWords :=
  ⟨by decide, get_summary_deterministic echoSummarizer 0 1 fiftyWords (by decide)⟩

/-! ### Claims about search -/

theorem hitLE_trans (a b c : SearchHit) (hab : hitLE a b) (hbc : hitLE b c) :
    hitLE a c := by
  simp only [hitLE, decide_eq_true_eq] at *
  rcases hab with h1 | ⟨h1, h1'⟩ <;> rcases hbc with h2 | ⟨h2, h2'⟩
  · exact Or.inl (h2.trans h1)
  · exact Or.inl (h2 ▸ h1)
  · exact Or.inl (h2.trans_le h1.symm.le)
  · exact Or.inr ⟨h1.trans h2, h1'.trans h2'⟩

theorem hitLE_total (a b : SearchHit) : hitLE a b || hitLE b a := by
  simp only [hitLE, Bool.or_eq_true, decide_eq_true_eq]
  rcases lt_trichotomy a.score b.score with h | h | h
  · exact Or.inr (Or.inl h)
  · rcases Nat.le_total a.corpus_id b.corpus_id with hid | hid
    · exact Or.inl (Or.inr ⟨h, hid⟩)
    · exact Or.inr (Or.inr ⟨h.symm, hid⟩)
  · exact Or.inl (Or.inl h)

/-- The `corpus_id` components of the scored corpus are exactly
`0, …, N-1`. -/
theorem scored_map_corpus_id (q : List ℚ) (corpus : List (List ℚ)) :
    ((corpus.enum.map fun p => SearchHit.mk p.1 (dot q p.2)).map
      (fun hit => hit.corpus_id)) = List.range corpus.length := by
  rw [List.map_map]
  exact List.enum_map_fst corpus

/-- C2 counterexample: the query `" "` is whitespace-only but non-empty, so
Python's `if not query` guard does not fire: the query is encoded and
searched, and the result on a one-row corpus is non-empty rather than the
empty sequence the claim requires. -/
theorem search_whitespace_cex :
    search " " (fun _ => [(1 : ℚ)]) [[(1 : ℚ)]] 10 ≠ [] := by
  intro he
  have h : (search " " (fun _ => [(1 : ℚ)]) [[(1 : ℚ)]] 10).length = 1 := by
    rw [search, if_neg (by decide : ¬(" " : String) = "")]
    simp [semantic_search]
  rw [he] at h
  simp at h

/-- C2 (amended): `search` short-circuits to the empty sequence exactly for
the empty query string: for `query = ""` it returns `[]` for every model and
corpus (so the encoding model is not invoked).  Whitespace-only non-empty
queries are not guarded and are searched normally. -/
theorem search_empty_query (m : String → List ℚ) (e : List (List ℚ)) (k : Nat) :
    search "" m e k = [] := rfl

/-- C5: for every non-empty query, `search` returns at most `top_k` hits,
pairwise ordered by strictly decreasing score with ties broken by original
corpus row order, and every hit's `corpus_id` is a valid corpus index.
Since `search` is a pure function, identical inputs yield identical result
sequences. -/
theorem search_topk_sorted (query : String) (m : String → List ℚ)
    (e : List (List ℚ)) (k : Nat) (h : query ≠ "") :
    (search query m e k).length ≤ k ∧
    (search query m e k).Pairwise
      (fun a b => b.score < a.score ∨
        (a.score = b.score ∧ a.corpus_id < b.corpus_id)) ∧
    ∀ hit ∈ search query m e k, hit.corpus_id < e.length := by
  rw [search, if_neg h]
  set scored := (e.enum.map fun p => SearchHit.mk p.1 (dot (m query) p.2)) with hscored
  refine ⟨?_, ?_, ?_⟩
  · rw [semantic_search, List.length_take]
    exact Nat.min_le_left _ _
  · have hsorted : (scored.mergeSort hitLE).Pairwise (fun a b => hitLE a b) :=
      List.sorted_mergeSort hitLE_trans hitLE_total scored
    have hnd : ((scored.mergeSort hitLE).map (fun hit => hit.corpus_id)).Nodup := by
      have hperm : List.Perm ((scored.mergeSort hitLE).map (fun hit => hit.corpus_id))
          (scored.map (fun hit => hit.corpus_id)) :=
        (List.mergeSort_perm scored hitLE).map _
      refine hperm.symm.nodup ?_
      rw [hscored, scored_map_corpus_id]
      exact List.nodup_range _
    have hne : (scored.mergeSort hitLE).Pairwise
        (fun a b => a.corpus_id ≠ b.corpus_id) := List.pairwise_map.mp hnd
    have hcomb := hsorted.and hne
    rw [semantic_search]
    refine ((hcomb.sublist (List.take_sublist k _)).imp ?_)
    rintro a b ⟨hab, hid⟩
    simp only [hitLE, decide_eq_true_eq] at hab
    rcases hab with h1 | ⟨h1, h1'⟩
    · exact Or.inl h1
    · exact Or.inr ⟨h1, Nat.lt_of_le_of_ne h1' hid⟩
  · intro hit hmem
    rw [semantic_search] at hmem
    have hmem' : hit ∈ scored.mergeSort hitLE :=
      (List.take_sublist k _).subset hmem
    rw [List.mem_mergeSort, hscored, List.mem_map] at hmem'
    obtain ⟨p, hp, hpe⟩ := hmem'
    rw [← hpe]
    exact List.fst_lt_of_mem_enum hp

/-- Witness for C5 at a concrete non-empty query over a two-row corpus. -/
theorem search_topk_sorted_witness :
    ("a" : String) ≠ "" ∧
    ((search "a" (fun _ => [(1 : ℚ)]) [[(1 : ℚ)], [(2 : ℚ)]] 10).length ≤ 10 ∧
    (search "a" (fun _ => [(1 : ℚ)]) [[(1 : ℚ)], [(2 : ℚ)]] 10).Pairwise
      (fun a b => b.score < a.score ∨
        (a.score = b.score ∧ a.corpus_id < b.corpus_id)) ∧
    ∀ hit ∈ search "a" (fun _ => [(1 : ℚ)]) [[(1 : ℚ)], [(2 : ℚ)]] 10,
      hit.corpus_id < ([[(1 : ℚ)], [(2 : ℚ)]] : List (List ℚ)).length) :=
  ⟨by decide, search_topk_sorted "a" (fun _ => [(1 : ℚ)]) [[(1 : ℚ)], [(2 : ℚ)]] 10
    (by decide)⟩

/-- C7: for every non-empty query, when `top_k` is at least the corpus size
`N`, `search` returns exactly `N` hits, covering every corpus row — it
returns all available hits rather than failing. -/
theorem search_topk_exceeds (query : String) (m : String → List ℚ)
    (e : List (List ℚ)) (k : Nat) (h : query ≠ "") (hk : e.length ≤ k) :
    (search query m e k).length = e.length ∧
    ∀ i < e.length, ∃ hit ∈ search query m e k, hit.corpus_id = i := by
  rw [search, if_neg h]
  set scored := (e.enum.map fun p => SearchHit.mk p.1 (dot (m query) p.2)) with hscored
  have hlen : (scored.mergeSort hitLE).length = e.length := by
    rw [List.length_mergeSort, hscored, List.length_map, List.enum_length]
  have htake : (scored.mergeSort hitLE).take k = scored.mergeSort hitLE :=
    List.take_of_length_le (by omega)
  rw [semantic_search, htake]
  refine ⟨hlen, ?_⟩
  intro i hi
  have hmemrange : i ∈ List.range e.length := List.mem_range.mpr hi
  have hidmap : i ∈ (scored.mergeSort hitLE).map (fun hit => hit.corpus_id) := by
    have hperm : List.Perm ((scored.mergeSort hitLE).map (fun hit => hit.corpus_id))
        (scored.map (fun hit => hit.corpus_id)) :=
      (List.mergeSort_perm scored hitLE).map _
    rw [hperm.mem_iff, hscored, scored_map_corpus_id]
    exact hmemrange
  obtain ⟨hit, hmem, hid⟩ := List.mem_map.mp hidmap
  exact ⟨hit, hmem, hid⟩

/-- Witness for C7: a two-row corpus with `top_k = 10` yields both rows. -/
theorem search_topk_exceeds_witness :
    ("a" : String) ≠ "" ∧
    ([[(1 : ℚ)], [(2 : ℚ)]] : List (List ℚ)).length ≤ 10 ∧
    ((search "a" (fun _ => [(1 : ℚ)]) [[(1 : ℚ)], [(2 : ℚ)]] 10).length =
      ([[(1 : ℚ)], [(2 : ℚ)]] : List (List ℚ)).length ∧
    ∀ i < ([[(1 : ℚ)], [(2 : ℚ)]] : List (List ℚ)).length,
      ∃ hit ∈ search "a" (fun _ => [(1 : ℚ)]) [[(1 : ℚ)], [(2 : ℚ)]] 10,
        hit.corpus_id = i) :=
  ⟨by decide, by decide,
    search_topk_exceeds "a" (fun _ => [(1 : ℚ)]) [[(1 : ℚ)], [(2 : ℚ)]] 10
      (by decide) (by decide)⟩

end BioQuery
